import Mathlib

set_option linter.unusedVariables false

/-!
Verification of the freeipa-healthcheck core engine
(`src/ipahealthcheck/core/main.py`) against its specification.

The engine is embedded shallowly: plugins are data (identity, capability
flags, declared requirements, and the behaviour of their `check()` method),
and each engine function of `main.py` is translated into a Lean function of
the same name.  Engine-level faults (a Python exception escaping the engine
itself) are represented with `Except String`.
-/

namespace Ipahc

/-- Severity constants.  Modelled from the spec: `constants.py` is not part
of the sources under scrutiny; the spec (§3 Data Model, Glossary) lists
SUCCESS, ERROR, CRITICAL plus additional domain severities (WARNING). -/
inductive Severity
  | SUCCESS
  | WARNING
  | ERROR
  | CRITICAL
deriving DecidableEq

/-- Identity of a plugin: its originating module (`plugin.__module__`) and
its class name (`plugin.__class__.__name__`). -/
structure PluginRef where
  module : String
  className : String
deriving DecidableEq

/-- Modelled from the spec: the `Result` value type of
`ipahealthcheck/core/plugin.py` (not under the sources given).  Spec §3:
"{plugin reference, severity, optional human message, optional fault
description}". -/
structure Result where
  plugin : PluginRef
  severity : Severity
  msg : Option String
  exception : Option String
deriving DecidableEq

/-- Modelled from the spec: the `Results` collection of
`ipahealthcheck/core/plugin.py` (not under the sources given).  Spec §3:
"ordered sequence of Result; insertion order is meaningful ...; supports
append of a single Result and extension by another Results".  It is a
sequence and nothing more: in particular it has no `severity` field. -/
abbrev Results := List Result

/-- The behaviour of a plugin's `check()` method.  It either raises an
exception whose `str(e)` is `msg`, or returns a value.  For a returned
value that is an instance of `Result` (resp. `Results`) we record whether
its runtime type is exactly `Result` (resp. `Results`), i.e. whether
`type(result) in (Result, Results)` holds, or it is a proper subclass.
Any other returned value (`None` included) is `returnsOther`. -/
inductive CheckBehavior
  | raises (msg : String)
  | returnsResult (r : Result) (exactType : Bool)
  | returnsResults (rs : Results) (exactType : Bool)
  | returnsOther
deriving DecidableEq

/-- A plugin as the engine sees it: identity metadata, whether it is an
instance of `ServiceCheck`, its `service_name` (meaningful for service
checks), its `requires` set of service names, and the behaviour of its
`check()` method. -/
structure Plugin where
  module : String
  className : String
  isServiceCheck : Bool
  service_name : String
  requires : List String
  check : CheckBehavior
deriving DecidableEq

/-- The plugin reference stored in results synthesized for a plugin. -/
def Plugin.ref (p : Plugin) : PluginRef :=
  ⟨p.module, p.className⟩

/-- A value produced by `run_plugin` or by the missing-requirements branch:
at runtime it is either (exactly) a `Result` or (exactly) a `Results`. -/
inductive Outcome
  | result (r : Result)
  | results (rs : Results)
deriving DecidableEq

/-- Dispatching an outcome into a growing `Results` collection:
`results.add(result)` when it is a `Result`, `results.extend(result)` when
it is a `Results` (main.py lines 82-85 and 114-117).  Appending this list
is that dispatch. -/
def Outcome.toList : Outcome → Results
  | .result r => [r]
  | .results rs => rs

/-- Reading `.severity` off an outcome (main.py line 80).  A `Result`
carries a severity; a `Results` (modelled from the spec, see `Results`)
supports only append and extend, so the attribute read faults. -/
def Outcome.severityAttr : Outcome → Except String Severity
  | .result r => .ok r.severity
  | .results _ => .error "AttributeError: Results object has no attribute severity"

/-- `run_plugin` (main.py lines 34-44): call `plugin.check()`; if the
returned value's type is not exactly `Result` or `Results`, replace it by
`Result(plugin, SUCCESS)`; if the call raises `e`, produce
`Result(plugin, CRITICAL, exception=str(e))`.  The `available` argument
(default `()` in the source) is accepted but never used. -/
def run_plugin (plugin : Plugin) (available : List String) : Outcome :=
  match plugin.check with
  | .raises m => .result ⟨plugin.ref, Severity.CRITICAL, none, some m⟩
  | .returnsResult r exact =>
      if exact then .result r
      else .result ⟨plugin.ref, Severity.SUCCESS, none, none⟩
  | .returnsResults rs exact =>
      if exact then .results rs
      else .result ⟨plugin.ref, Severity.SUCCESS, none, none⟩
  | .returnsOther => .result ⟨plugin.ref, Severity.SUCCESS, none, none⟩

/-- Python truthiness of an optional string: `None` and the empty string
are falsy. -/
def truthyStr : Option String → Bool
  | none => false
  | some s => !(s == "")

/-- `source_or_check_matches` (main.py lines 47-57).  Note the asymmetry in
the source: `source` is tested with `is not None`, while `check` is tested
for truthiness (`if check:`). -/
def source_or_check_matches (plugin : Plugin) (source check : Option String) : Bool :=
  if source ≠ none ∧ source ≠ some plugin.module then
    false
  else if truthyStr check ∧ check ≠ some plugin.className then
    false
  else
    true

/-- `set(plugin.requires).issubset(available)` (main.py line 111). -/
def requiresSubset (requires available : List String) : Bool :=
  requires.all fun r => available.contains r

/-- `set(plugin.requires) - available` (main.py line 114).  Python set
iteration order is unspecified; we fix the deterministic first-occurrence
order.  The elements are exactly the required services not available. -/
def missing_services (requires available : List String) : List String :=
  requires.dedup.filter fun r => !available.contains r

/-- The message of the Result synthesized for unmet requirements:
`'%s service(s) not running' % (', '.join(set(plugin.requires) - available))`
(main.py lines 113-114). -/
def missingMsg (requires available : List String) : String :=
  String.intercalate ", " (missing_services requires available) ++ " service(s) not running"

/-- The loop body of `run_plugins` for one non-service plugin that matches
the filter (main.py lines 111-117): if the required services are not a
subset of the available ones, synthesize the ERROR Result without calling
the plugin; otherwise run the plugin. -/
def phase2_outcome (plugin : Plugin) (available : List String) : Outcome :=
  if !requiresSubset plugin.requires available then
    .result ⟨plugin.ref, Severity.ERROR, some (missingMsg plugin.requires available), none⟩
  else
    run_plugin plugin available

/-- `run_plugins` (main.py lines 90-119): iterate over the plugins, skip
`ServiceCheck` instances and plugins not matching the filter, gate each
remaining plugin on its requirements, and collect the outcomes in
iteration order. -/
def run_plugins (plugins : List Plugin) (available : List String)
    (source check : Option String) : Results :=
  match plugins with
  | [] => []
  | plugin :: rest =>
    if plugin.isServiceCheck then
      run_plugins rest available source check
    else if !source_or_check_matches plugin source check then
      run_plugins rest available source check
    else
      (phase2_outcome plugin available).toList ++ run_plugins rest available source check

/-- `run_service_plugins` (main.py lines 60-87): iterate over the plugins,
keep `ServiceCheck` instances matching the filter, run each with
`run_plugin(plugin)` (no `available` argument, so the empty default), read
`result.severity` (which faults when the outcome is a `Results`), record
the `service_name` of SUCCESS outcomes, and collect the outcomes in
iteration order.  The source returns `set(available)`; we return the
underlying list in append order and state set-level facts via membership. -/
def run_service_plugins (plugins : List Plugin) (source check : Option String) :
    Except String (Results × List String) :=
  match plugins with
  | [] => .ok ([], [])
  | plugin :: rest =>
    if !plugin.isServiceCheck then
      run_service_plugins rest source check
    else if !source_or_check_matches plugin source check then
      run_service_plugins rest source check
    else
      let result := run_plugin plugin []
      match result.severityAttr with
      | .error e => .error e
      | .ok sev =>
        match run_service_plugins rest source check with
        | .error e => .error e
        | .ok (results, available) =>
          .ok (result.toList ++ results,
               (if sev = Severity.SUCCESS then [plugin.service_name] else []) ++ available)

/-- The check-running part of `main` (main.py lines 181-184): run the
service plugins, then extend their results with the results of the
remaining plugins, passing the available-services set along. -/
def run_checks (plugins : List Plugin) (source check : Option String) :
    Except String Results :=
  match run_service_plugins plugins source check with
  | .error e => .error e
  | .ok (results, available) =>
      .ok (results ++ run_plugins plugins available source check)

/-- The predicate selecting the plugins processed by phase 1
(`run_service_plugins`): `ServiceCheck` instances matching the filter. -/
def serviceFilter (source check : Option String) (p : Plugin) : Bool :=
  p.isServiceCheck && source_or_check_matches p source check

/-- The predicate selecting the plugins processed by phase 2
(`run_plugins`): non-`ServiceCheck` instances matching the filter. -/
def checkFilter (source check : Option String) (p : Plugin) : Bool :=
  !p.isServiceCheck && source_or_check_matches p source check

/-- The contribution of one processed phase-1 plugin to the `available`
list (main.py lines 80-81): its `service_name` exactly when its outcome
carries severity SUCCESS. -/
def phase1_avail (p : Plugin) : List String :=
  match (run_plugin p []).severityAttr with
  | .ok sev => if sev = Severity.SUCCESS then [p.service_name] else []
  | .error _ => []

/-- The renderer as the engine sees it (spec §4.7, main.py lines 171-192):
an `output_only` flag and a `render` method that may fault; a fault is an
`Except.error` carrying its description. -/
structure Renderer where
  output_only : Bool
  render : Option Results → Except String Unit

/-- The observable behaviour of the tail of `main`: each call of
`output.render` with its argument, in order, and each fault reported by
the `except` clause around the render call (main.py lines 189-192). -/
structure MainTrace where
  renderCalls : List (Option Results)
  faultsReported : List String

/-- The tail of `main` (main.py lines 177-192), given the discovered
plugins and the constructed output renderer: unless the renderer is
output-only, run phase 1 and phase 2 and aggregate; call `render` once
with the results (or with nothing when output-only); catch and report any
fault render raises.  `Except.error` models an engine fault escaping
`main` and aborting the process (see `Outcome.severityAttr`). -/
def main_tail (out : Renderer) (plugins : List Plugin) (source check : Option String) :
    Except String MainTrace :=
  if !out.output_only then
    match run_checks plugins source check with
    | .error e => .error e
    | .ok results =>
      match out.render (some results) with
      | .ok _ => .ok ⟨[some results], []⟩
      | .error m => .ok ⟨[some results], [m]⟩
  else
    match out.render none with
    | .ok _ => .ok ⟨[none], []⟩
    | .error m => .ok ⟨[none], [m]⟩

/-! Concrete plugins, results and renderers used to instantiate the
theorems below on closed inputs. -/

/-- A plugin whose `check()` raises an exception with text "boom". -/
def crashPlugin : Plugin :=
  ⟨"ipahealthcheck.mod.a", "CrashCheck", false, "", [], .raises "boom"⟩

/-- A sample `Result` value as a plugin could construct it itself. -/
def sampleResult : Result :=
  ⟨⟨"ipahealthcheck.mod.b", "OwnResultCheck"⟩,
   Severity.WARNING, some "made by the plugin", none⟩

/-- A plugin whose `check()` returns `sampleResult` (exact type `Result`). -/
def ownResultPlugin : Plugin :=
  ⟨"ipahealthcheck.mod.b", "OwnResultCheck", false, "", [],
   .returnsResult sampleResult true⟩

/-- A plugin whose `check()` returns an exact-type `Results` collection
holding `sampleResult`. -/
def ownResultsPlugin : Plugin :=
  ⟨"ipahealthcheck.mod.b", "OwnResultsCheck", false, "", [],
   .returnsResults [sampleResult] true⟩

/-- A plugin whose `check()` returns `None` (modelled as `returnsOther`). -/
def nonePlugin : Plugin :=
  ⟨"ipahealthcheck.mod.c", "NoneCheck", false, "", [], .returnsOther⟩

/-- A plugin whose `check()` returns an instance of a proper subclass of
`Result`. -/
def subResultPlugin : Plugin :=
  ⟨"ipahealthcheck.mod.d", "SubResultCheck", false, "", [],
   .returnsResult sampleResult false⟩

/-- A plugin whose `check()` returns an instance of a proper subclass of
`Results`. -/
def subResultsPlugin : Plugin :=
  ⟨"ipahealthcheck.mod.d", "SubResultsCheck", false, "", [],
   .returnsResults [sampleResult] false⟩

/-- A dependent plugin requiring services "A" and "B". -/
def depPlugin : Plugin :=
  ⟨"ipahealthcheck.mod.e", "DepCheck", false, "", ["A", "B"], .returnsOther⟩

/-- A concrete plugin for exercising the filter predicate. -/
def fooPlugin : Plugin :=
  ⟨"ipahealthcheck.mod.foo", "FooCheck", false, "", [], .returnsOther⟩

/-- A service plugin probing service "A"; its `check()` returns `None`, so
`run_plugin` normalizes the outcome to SUCCESS. -/
def svcA : Plugin :=
  ⟨"ipahealthcheck.meta.services", "ServiceA", true, "A", [], .returnsOther⟩

/-- A service plugin probing service "B"; its `check()` raises, so
`run_plugin` yields a CRITICAL outcome. -/
def svcB : Plugin :=
  ⟨"ipahealthcheck.meta.services", "ServiceB", true, "B", [], .raises "down"⟩

/-- A service plugin whose `check()` returns an exact-type `Results`
collection (empty, for definiteness). -/
def svcResultsPlugin : Plugin :=
  ⟨"ipahealthcheck.meta.services", "ServiceR", true, "R", [], .returnsResults [] true⟩

/-- A renderer that is not output-only and always faults on render. -/
def faultyRenderer : Renderer :=
  ⟨false, fun _ => .error "render boom"⟩

/-- An output-only renderer that always faults on render. -/
def faultyListRenderer : Renderer :=
  ⟨true, fun _ => .error "render boom"⟩

/-- The aggregated results of running `[svcA, svcB, depPlugin]` with no
filter: phase 1 yields SUCCESS for `svcA` and CRITICAL for `svcB`, phase 2
gates `depPlugin` on the missing service "B". -/
def sampleRunResults : Results :=
  [⟨svcA.ref, Severity.SUCCESS, none, none⟩,
   ⟨svcB.ref, Severity.CRITICAL, none, some "down"⟩,
   ⟨depPlugin.ref, Severity.ERROR, some "B service(s) not running", none⟩]

/-! Helper lemmas shared by the claim theorems. -/

theorem mem_missing_services (requires available : List String) (x : String) :
    x ∈ missing_services requires available ↔
      x ∈ requires ∧ available.contains x = false := by
  simp [missing_services, List.mem_filter, List.mem_dedup]

theorem requiresSubset_eq_false_of_missing (requires available : List String)
    (h : missing_services requires available ≠ []) :
    requiresSubset requires available = false := by
  rcases List.exists_mem_of_ne_nil _ h with ⟨x, hx⟩
  rw [mem_missing_services] at hx
  rw [requiresSubset, Bool.eq_false_iff]
  intro hall
  have hx' := List.all_eq_true.mp hall x hx.1
  rw [hx.2] at hx'
  cases hx'

theorem requiresSubset_eq_true_of_missing_nil (requires available : List String)
    (h : missing_services requires available = []) :
    requiresSubset requires available = true := by
  rw [requiresSubset, List.all_eq_true]
  intro x hx
  by_contra hc
  have hmem : x ∈ missing_services requires available :=
    (mem_missing_services requires available x).mpr ⟨hx, Bool.eq_false_iff.mpr hc⟩
  rw [h] at hmem
  exact absurd hmem (List.not_mem_nil x)

theorem run_plugins_eq_flatMap (plugins : List Plugin) (available : List String)
    (source check : Option String) :
    run_plugins plugins available source check =
      (plugins.filter (checkFilter source check)).flatMap
        (fun p => (phase2_outcome p available).toList) := by
  induction plugins with
  | nil => rfl
  | cons p rest ih =>
    by_cases h1 : p.isServiceCheck = true
    · simp [run_plugins, h1, List.filter_cons, checkFilter, ih]
    · by_cases h2 : source_or_check_matches p source check = true
      · simp [run_plugins, h1, h2, List.filter_cons, checkFilter, ih]
      · simp [run_plugins, h1, h2, List.filter_cons, checkFilter, ih]

theorem run_service_plugins_ok_eq (plugins : List Plugin) (source check : Option String)
    (rs : Results) (avail : List String)
    (h : run_service_plugins plugins source check = .ok (rs, avail)) :
    rs = (plugins.filter (serviceFilter source check)).flatMap
          (fun p => (run_plugin p []).toList)
    ∧ avail = (plugins.filter (serviceFilter source check)).flatMap phase1_avail := by
  induction plugins generalizing rs avail with
  | nil =>
    rw [run_service_plugins] at h
    injection h with h'
    injection h' with h1 h2
    simp [← h1, ← h2]
  | cons p rest ih =>
    by_cases h1 : p.isServiceCheck = true
    · by_cases h2 : source_or_check_matches p source check = true
      · rw [run_service_plugins] at h
        simp only [h1, h2, Bool.not_true, Bool.false_eq_true, if_false, ite_false] at h
        cases hrp : run_plugin p [] with
        | results rs0 =>
          rw [hrp] at h
          simp [Outcome.severityAttr] at h
        | result r =>
          rw [hrp] at h
          simp only [Outcome.severityAttr] at h
          cases hrec : run_service_plugins rest source check with
          | error e => rw [hrec] at h; cases h
          | ok pair =>
            obtain ⟨rs', avail'⟩ := pair
            rw [hrec] at h
            injection h with h'
            injection h' with hrs havail
            obtain ⟨ih1, ih2⟩ := ih rs' avail' hrec
            constructor
            · rw [← hrs, ih1]
              simp [List.filter_cons, serviceFilter, h1, h2, hrp]
            · rw [← havail, ih2]
              simp [List.filter_cons, serviceFilter, h1, h2, phase1_avail, hrp,
                    Outcome.severityAttr]
      · rw [run_service_plugins] at h
        simp only [h1, h2, Bool.not_true, Bool.false_eq_true, if_false, ite_false,
                   if_true, Bool.not_false] at h
        obtain ⟨ih1, ih2⟩ := ih rs avail h
        constructor
        · rw [ih1]; simp [List.filter_cons, serviceFilter, h1, h2]
        · rw [ih2]; simp [List.filter_cons, serviceFilter, h1, h2]
    · have hf : p.isServiceCheck = false := Bool.eq_false_iff.mpr h1
      rw [run_service_plugins, hf] at h
      simp only [Bool.not_false, if_true] at h
      obtain ⟨ih1, ih2⟩ := ih rs avail h
      constructor
      · rw [ih1]; simp [List.filter_cons, serviceFilter, hf]
      · rw [ih2]; simp [List.filter_cons, serviceFilter, hf]

/-- Claim C10: `run_plugin`'s outcome is independent of the
available-services argument: the parameter is accepted but never used, and
in particular is not passed to the plugin's `check()`. -/
theorem claim10_available_independent (p : Plugin) (a1 a2 : List String) :
    run_plugin p a1 = run_plugin p a2 := rfl

/-- Claim C2: if a plugin's `check()` raises with message `m`, `run_plugin`
returns exactly one CRITICAL Result referencing that plugin whose fault
text equals `m`.  The fault does not propagate: `run_plugin` is a total
function into `Outcome`, not into `Except`. -/
theorem claim2_fault_contained (p : Plugin) (available : List String) (m : String)
    (h : p.check = CheckBehavior.raises m) :
    run_plugin p available =
      Outcome.result ⟨p.ref, Severity.CRITICAL, none, some m⟩ := by
  simp [run_plugin, h]

/-- Witness for claim C2 at a concrete crashing plugin. -/
theorem claim2_instance :
    crashPlugin.check = CheckBehavior.raises "boom" ∧
    run_plugin crashPlugin ["A"] =
      Outcome.result ⟨crashPlugin.ref, Severity.CRITICAL, none, some "boom"⟩ :=
  ⟨rfl, claim2_fault_contained crashPlugin ["A"] "boom" rfl⟩

/-- Claim C3: if a plugin's `check()` returns a value that is neither a
`Result` nor a `Results` (None included), `run_plugin` returns exactly one
SUCCESS Result referencing that plugin; if `check()` returns a `Result` or
a `Results` (a value of exactly those types — values of proper subtypes
are settled by claim C9), `run_plugin` passes it through unchanged. -/
theorem claim3_outcome_normalization (p : Plugin) (available : List String) :
    (p.check = CheckBehavior.returnsOther →
      run_plugin p available = Outcome.result ⟨p.ref, Severity.SUCCESS, none, none⟩)
    ∧ (∀ r : Result, p.check = CheckBehavior.returnsResult r true →
        run_plugin p available = Outcome.result r)
    ∧ (∀ rs : Results, p.check = CheckBehavior.returnsResults rs true →
        run_plugin p available = Outcome.results rs) :=
  ⟨fun h => by simp [run_plugin, h],
   fun r h => by simp [run_plugin, h],
   fun rs h => by simp [run_plugin, h]⟩

/-- Witness for claim C3: its three cases at concrete plugins. -/
theorem claim3_instance :
    run_plugin nonePlugin [] =
      Outcome.result ⟨nonePlugin.ref, Severity.SUCCESS, none, none⟩
    ∧ run_plugin ownResultPlugin [] = Outcome.result sampleResult
    ∧ run_plugin ownResultsPlugin [] = Outcome.results [sampleResult] :=
  ⟨(claim3_outcome_normalization nonePlugin []).1 rfl,
   (claim3_outcome_normalization ownResultPlugin []).2.1 sampleResult rfl,
   (claim3_outcome_normalization ownResultsPlugin []).2.2 [sampleResult] rfl⟩

/-- Claim C9: the pass-through of `run_plugin` applies only to values whose
exact runtime type is `Result` or `Results`; a value that is an instance of
a proper subtype of either is discarded and replaced by a synthesized
SUCCESS Result for the plugin (`type(result) not in (Result, Results)`,
main.py line 37). -/
theorem claim9_subclass_discarded (p : Plugin) (available : List String) :
    (∀ r : Result, p.check = CheckBehavior.returnsResult r false →
      run_plugin p available = Outcome.result ⟨p.ref, Severity.SUCCESS, none, none⟩)
    ∧ (∀ rs : Results, p.check = CheckBehavior.returnsResults rs false →
      run_plugin p available = Outcome.result ⟨p.ref, Severity.SUCCESS, none, none⟩) :=
  ⟨fun r h => by simp [run_plugin, h],
   fun rs h => by simp [run_plugin, h]⟩

/-- Witness for claim C9 at concrete subclass-returning plugins. -/
theorem claim9_instance :
    run_plugin subResultPlugin [] =
      Outcome.result ⟨subResultPlugin.ref, Severity.SUCCESS, none, none⟩
    ∧ run_plugin subResultsPlugin [] =
      Outcome.result ⟨subResultsPlugin.ref, Severity.SUCCESS, none, none⟩ :=
  ⟨(claim9_subclass_discarded subResultPlugin []).1 sampleResult rfl,
   (claim9_subclass_discarded subResultsPlugin []).2 [sampleResult] rfl⟩

/-- Claim C6 counterexample: the claim says that for every non-null check
value `c`, a match implies the plugin's class name equals `c`; but with the
non-null check value `""` (falsy in Python, `if check:` on main.py line
54), the filter matches a plugin whose class name is not `""`. -/
theorem claim6_counterexample :
    source_or_check_matches fooPlugin none (some "") = true
    ∧ fooPlugin.className ≠ "" := by
  constructor
  · decide
  · decide

/-- Claim C6 as amended: `matches(p, null, null)` is true; a non-null
source value must equal the plugin's module for a match; a non-null AND
non-empty check value must equal the plugin's class name for a match (an
empty-string check is falsy and acts as no check filter); and with no
check filter, a non-null source matches exactly the plugins of that
module. -/
theorem claim6_filter_amended (p : Plugin) (s0 c0 : Option String) :
    source_or_check_matches p none none = true
    ∧ (∀ sv, source_or_check_matches p (some sv) c0 = true → p.module = sv)
    ∧ (∀ cv, cv ≠ "" → source_or_check_matches p s0 (some cv) = true → p.className = cv)
    ∧ (∀ sv, source_or_check_matches p (some sv) none = true ↔ p.module = sv) := by
  refine ⟨rfl, fun sv h => ?_, fun cv hcv h => ?_, fun sv => ⟨fun h => ?_, fun h => ?_⟩⟩
  · by_contra hne
    rw [source_or_check_matches,
        if_pos ⟨Option.some_ne_none sv, fun he => hne (Option.some.inj he).symm⟩] at h
    exact Bool.false_ne_true h
  · by_contra hne
    rw [source_or_check_matches] at h
    by_cases h1 : s0 ≠ none ∧ s0 ≠ some p.module
    · rw [if_pos h1] at h
      exact Bool.false_ne_true h
    · rw [if_neg h1,
          if_pos ⟨by simp [truthyStr, hcv], fun he => hne (Option.some.inj he).symm⟩] at h
      exact Bool.false_ne_true h
  · by_contra hne
    rw [source_or_check_matches,
        if_pos ⟨Option.some_ne_none sv, fun he => hne (Option.some.inj he).symm⟩] at h
    exact Bool.false_ne_true h
  · rw [source_or_check_matches, if_neg (fun hc => hc.2 (by rw [h])),
        if_neg (fun hc => by simp [truthyStr] at hc)]

/-- Claim C1: for a Checkable-only plugin that matches the filter, phase 2
computes the missing services, `requires` minus the available set (the
first conjunct characterizes that set exactly).  If they are non-empty,
phase 2 synthesizes in place an ERROR Result naming exactly the missing
services, and the plugin's `check()` is never invoked: the plugin's
contribution is the same for every check behaviour.  If they are empty,
the plugin is invoked via `run_plugin` and its outcome is the plugin's
contribution. -/
theorem claim1_missing_requirements_gate (l1 l2 : List Plugin) (p : Plugin)
    (available : List String) (source check : Option String)
    (hsvc : p.isServiceCheck = false)
    (hmatch : source_or_check_matches p source check = true) :
    (∀ x, x ∈ missing_services p.requires available ↔
        (x ∈ p.requires ∧ available.contains x = false))
    ∧ (missing_services p.requires available ≠ [] →
        (run_plugins (l1 ++ p :: l2) available source check =
          run_plugins l1 available source check ++
            [⟨p.ref, Severity.ERROR, some (missingMsg p.requires available), none⟩] ++
            run_plugins l2 available source check)
        ∧ ∀ b, run_plugins (l1 ++ { p with check := b } :: l2) available source check =
            run_plugins (l1 ++ p :: l2) available source check)
    ∧ (missing_services p.requires available = [] →
        run_plugins (l1 ++ p :: l2) available source check =
          run_plugins l1 available source check ++
            (run_plugin p available).toList ++
            run_plugins l2 available source check) := by
  have hgen : ∀ q : Plugin, q.isServiceCheck = false →
      source_or_check_matches q source check = true →
      run_plugins (l1 ++ q :: l2) available source check =
        run_plugins l1 available source check ++
          (phase2_outcome q available).toList ++
          run_plugins l2 available source check := by
    intro q hq hmq
    have hkeep : checkFilter source check q = true := by
      rw [checkFilter, hq, hmq]
      rfl
    rw [run_plugins_eq_flatMap, List.filter_append, List.filter_cons, hkeep]
    rw [if_pos rfl, List.flatMap_append, List.flatMap_cons]
    rw [run_plugins_eq_flatMap l1, run_plugins_eq_flatMap l2]
    rw [List.append_assoc]
  have hgate : ∀ b : CheckBehavior, missing_services p.requires available ≠ [] →
      run_plugins (l1 ++ { p with check := b } :: l2) available source check =
        run_plugins l1 available source check ++
          [⟨p.ref, Severity.ERROR, some (missingMsg p.requires available), none⟩] ++
          run_plugins l2 available source check := by
    intro b hmiss
    have hsub : requiresSubset p.requires available = false :=
      requiresSubset_eq_false_of_missing _ _ hmiss
    have hcontrib : (phase2_outcome { p with check := b } available).toList =
        [⟨p.ref, Severity.ERROR, some (missingMsg p.requires available), none⟩] := by
      simp [phase2_outcome, hsub, Outcome.toList, Plugin.ref]
    rw [hgen { p with check := b }
      (show ({ p with check := b } : Plugin).isServiceCheck = false from hsvc)
      (show source_or_check_matches { p with check := b } source check = true from hmatch)]
    rw [hcontrib]
  refine ⟨fun x => mem_missing_services p.requires available x,
    fun hmiss => ⟨hgate p.check hmiss,
      fun b => (hgate b hmiss).trans (hgate p.check hmiss).symm⟩,
    fun hnil => ?_⟩
  have hsub : requiresSubset p.requires available = true :=
    requiresSubset_eq_true_of_missing_nil _ _ hnil
  have hpo : phase2_outcome p available = run_plugin p available := by
    rw [phase2_outcome, hsub]
    rfl
  rw [hgen p hsvc hmatch, hpo]

/-- Witness for claim C1, both branches: a dependent plugin requiring "A"
and "B" with only "A" available is gated with an ERROR Result mentioning
exactly "B"; with both "A" and "B" available it is invoked via
`run_plugin`, contributing its check outcome (here a SUCCESS Result). -/
theorem claim1_instance :
    run_plugins [depPlugin] ["A"] none none =
      [⟨depPlugin.ref, Severity.ERROR, some "B service(s) not running", none⟩]
    ∧ run_plugins [depPlugin] ["A", "B"] none none =
        (run_plugin depPlugin ["A", "B"]).toList
    ∧ (run_plugin depPlugin ["A", "B"]).toList =
        [⟨depPlugin.ref, Severity.SUCCESS, none, none⟩] := by
  refine ⟨?_, ?_, rfl⟩
  · have h := ((claim1_missing_requirements_gate [] [] depPlugin ["A"] none none
      rfl rfl).2.1 (by decide)).1
    rw [List.nil_append] at h
    rw [h]
    rfl
  · have h := (claim1_missing_requirements_gate [] [] depPlugin ["A", "B"] none none
      rfl rfl).2.2 (by decide)
    rw [List.nil_append] at h
    rw [h]
    rfl

/-- Claim C4: for every run that executes checks, the final aggregated
Results is exactly the phase-1 Results followed by the phase-2 Results,
and each phase's Results is the in-order concatenation of the outcomes of
the plugins it processes, in discovery order: no reordering, no
deduplication, no severity-based sorting. -/
theorem claim4_aggregation_order (plugins : List Plugin) (source check : Option String)
    (final : Results) (h : run_checks plugins source check = .ok final) :
    ∃ rs avail,
      run_service_plugins plugins source check = .ok (rs, avail)
      ∧ final = rs ++ run_plugins plugins avail source check
      ∧ rs = (plugins.filter (serviceFilter source check)).flatMap
              (fun p => (run_plugin p []).toList)
      ∧ run_plugins plugins avail source check =
          (plugins.filter (checkFilter source check)).flatMap
            (fun p => (phase2_outcome p avail).toList) := by
  cases hrsp : run_service_plugins plugins source check with
  | error e => rw [run_checks, hrsp] at h; cases h
  | ok pair =>
    obtain ⟨rs, avail⟩ := pair
    rw [run_checks, hrsp] at h
    injection h with h'
    exact ⟨rs, avail, rfl, h'.symm,
      (run_service_plugins_ok_eq plugins source check rs avail hrsp).1,
      run_plugins_eq_flatMap plugins avail source check⟩

/-- Witness for claim C4 on a concrete run: two service plugins followed by
one gated dependent plugin. -/
theorem claim4_instance :
    ∃ rs avail,
      run_service_plugins [svcA, svcB, depPlugin] none none = .ok (rs, avail)
      ∧ sampleRunResults = rs ++ run_plugins [svcA, svcB, depPlugin] avail none none
      ∧ rs = ([svcA, svcB, depPlugin].filter (serviceFilter none none)).flatMap
              (fun p => (run_plugin p []).toList)
      ∧ run_plugins [svcA, svcB, depPlugin] avail none none =
          ([svcA, svcB, depPlugin].filter (checkFilter none none)).flatMap
            (fun p => (phase2_outcome p avail).toList) :=
  claim4_aggregation_order [svcA, svcB, depPlugin] none none sampleRunResults rfl

/-- Claim C5: for every run whose phase 1 completes, the available-services
set contains exactly the `service_name` values of the ServiceCheck plugins
that match the filter and whose `run_plugin` outcome is a Result of
severity SUCCESS.  (Phase 2, `run_plugins`, only reads the set: it returns
a Results and nothing else.) -/
theorem claim5_available_services (plugins : List Plugin) (source check : Option String)
    (rs : Results) (avail : List String)
    (h : run_service_plugins plugins source check = .ok (rs, avail)) (x : String) :
    x ∈ avail ↔ ∃ p, p ∈ plugins ∧ p.isServiceCheck = true
      ∧ source_or_check_matches p source check = true
      ∧ (∃ r : Result, run_plugin p [] = Outcome.result r ∧ r.severity = Severity.SUCCESS)
      ∧ x = p.service_name := by
  rw [(run_service_plugins_ok_eq plugins source check rs avail h).2, List.mem_flatMap]
  constructor
  · rintro ⟨p, hp, hx⟩
    rw [List.mem_filter] at hp
    obtain ⟨hmem, hf⟩ := hp
    rw [serviceFilter, Bool.and_eq_true] at hf
    cases hrp : run_plugin p [] with
    | results rs0 =>
      simp only [phase1_avail, hrp, Outcome.severityAttr] at hx
      exact absurd hx (List.not_mem_nil x)
    | result r =>
      simp only [phase1_avail, hrp, Outcome.severityAttr] at hx
      by_cases hsev : r.severity = Severity.SUCCESS
      · rw [if_pos hsev, List.mem_singleton] at hx
        exact ⟨p, hmem, hf.1, hf.2, ⟨r, hrp, hsev⟩, hx⟩
      · rw [if_neg hsev] at hx
        exact absurd hx (List.not_mem_nil x)
  · rintro ⟨p, hmem, hsvc, hmatch, ⟨r, hrp, hsev⟩, hx⟩
    refine ⟨p, List.mem_filter.mpr ⟨hmem, by simp [serviceFilter, hsvc, hmatch]⟩, ?_⟩
    simp only [phase1_avail, hrp, Outcome.severityAttr]
    rw [if_pos hsev, hx]
    exact List.mem_singleton_self _

/-- Witness for claim C5 on a concrete phase-1 run: service "A" succeeds,
service "B" crashes, so the available set is exactly made of "A". -/
theorem claim5_instance :
    run_service_plugins [svcA, svcB] none none =
      .ok ([⟨svcA.ref, Severity.SUCCESS, none, none⟩,
            ⟨svcB.ref, Severity.CRITICAL, none, some "down"⟩], ["A"])
    ∧ ("A" ∈ (["A"] : List String) ↔ ∃ p, p ∈ [svcA, svcB] ∧ p.isServiceCheck = true
        ∧ source_or_check_matches p none none = true
        ∧ (∃ r : Result, run_plugin p [] = Outcome.result r ∧ r.severity = Severity.SUCCESS)
        ∧ "A" = p.service_name) :=
  ⟨rfl, claim5_available_services [svcA, svcB] none none
      [⟨svcA.ref, Severity.SUCCESS, none, none⟩,
       ⟨svcB.ref, Severity.CRITICAL, none, some "down"⟩] ["A"] rfl "A"⟩

/-- Claim C8 evaluated at the failing input: a ServiceCheck plugin matching
the filter whose `check()` returns a (genuine) Results collection makes the
engine itself fault.  `run_service_plugins` reads `result.severity` before
dispatching on the outcome's type (main.py line 80), and a Results has no
severity attribute, so phase 1 aborts instead of extending its output. -/
theorem claim8_engine_fault_on_results :
    run_service_plugins [svcResultsPlugin] none none =
      .error "AttributeError: Results object has no attribute severity" := rfl

/-- Claim C7: whenever the two phases complete (or are skipped because the
renderer is output-only), `render` is called exactly once — with nothing
when output-only (and then the phases are skipped: the trace is the same
with no plugins at all), with the aggregated Results otherwise — and a
fault from `render` is caught and reported exactly once while the run
still completes. -/
theorem claim7_render_handoff (out : Renderer) (plugins : List Plugin)
    (source check : Option String) :
    (out.output_only = true →
      ∃ t, main_tail out plugins source check = .ok t
        ∧ t.renderCalls = [none]
        ∧ main_tail out plugins source check = main_tail out [] source check
        ∧ (∀ m, out.render none = .error m → t.faultsReported = [m])
        ∧ (out.render none = .ok () → t.faultsReported = []))
    ∧ (out.output_only = false →
      ∀ results, run_checks plugins source check = .ok results →
        ∃ t, main_tail out plugins source check = .ok t
          ∧ t.renderCalls = [some results]
          ∧ (∀ m, out.render (some results) = .error m → t.faultsReported = [m])
          ∧ (out.render (some results) = .ok () → t.faultsReported = [])) := by
  constructor
  · intro ho
    cases hr : out.render none with
    | ok u =>
      refine ⟨⟨[none], []⟩, ?_, rfl, ?_, ?_, fun _ => rfl⟩
      · simp [main_tail, ho, hr]
      · simp [main_tail, ho, hr]
      · intro m hm; cases hm
    | error m0 =>
      refine ⟨⟨[none], [m0]⟩, ?_, rfl, ?_, ?_, ?_⟩
      · simp [main_tail, ho, hr]
      · simp [main_tail, ho, hr]
      · intro m hm; injection hm with h'; rw [h']
      · intro hm; cases hm
  · intro ho results hrc
    cases hr : out.render (some results) with
    | ok u =>
      refine ⟨⟨[some results], []⟩, ?_, rfl, ?_, fun _ => rfl⟩
      · simp [main_tail, ho, hrc, hr]
      · intro m hm; cases hm
    | error m0 =>
      refine ⟨⟨[some results], [m0]⟩, ?_, rfl, ?_, ?_⟩
      · simp [main_tail, ho, hrc, hr]
      · intro m hm; injection hm with h'; rw [h']
      · intro hm; cases hm

/-- Witness for claim C7: a run with an always-faulting renderer completes
with the fault reported once, and an output-only renderer gets one render
call with nothing, independently of the plugins. -/
theorem claim7_instance :
    (∃ t, main_tail faultyRenderer [svcA, svcB, depPlugin] none none = .ok t
      ∧ t.renderCalls = [some sampleRunResults]
      ∧ (∀ m, faultyRenderer.render (some sampleRunResults) = .error m →
          t.faultsReported = [m])
      ∧ (faultyRenderer.render (some sampleRunResults) = .ok () → t.faultsReported = []))
    ∧ (∃ t, main_tail faultyListRenderer [svcA, svcB, depPlugin] none none = .ok t
      ∧ t.renderCalls = [none]
      ∧ main_tail faultyListRenderer [svcA, svcB, depPlugin] none none =
          main_tail faultyListRenderer [] none none
      ∧ (∀ m, faultyListRenderer.render none = .error m → t.faultsReported = [m])
      ∧ (faultyListRenderer.render none = .ok () → t.faultsReported = [])) :=
  ⟨(claim7_render_handoff faultyRenderer [svcA, svcB, depPlugin] none none).2 rfl
      sampleRunResults rfl,
   (claim7_render_handoff faultyListRenderer [svcA, svcB, depPlugin] none none).1 rfl⟩

/-- Witness for the amended claim C6 at a concrete plugin, discharging the
match hypotheses by evaluation. -/
theorem claim6_instance :
    fooPlugin.module = "ipahealthcheck.mod.foo" ∧ fooPlugin.className = "FooCheck" :=
  ⟨(claim6_filter_amended fooPlugin (some "ipahealthcheck.mod.foo") none).2.1
      "ipahealthcheck.mod.foo" (by decide),
   (claim6_filter_amended fooPlugin none (some "FooCheck")).2.2.1
      "FooCheck" (by decide) (by decide)⟩

end Ipahc
